import Mathlib

/-!
Shallow embedding of the devops-capstone order-processing system:
the product-service stock-adjustment endpoint (`update_stock` in
src/services/product-service/app.py) and the order-service coordinator
endpoints (`create_order`, `update_order`, `confirm_order`, `delete_order`,
`get_order` in src/services/order-service/app.py).

Remote HTTP calls from the order service to the product service are modelled
by running the product-service handler on the product store when the network
is reachable; reachability is an explicit oracle boolean.  The calls the
coordinator issues are recorded in a list so that "no remote calls" claims
are statable.  Python `int()` coercion and truthiness on JSON values are
modelled explicitly because `create_order` validates its body with them.
-/

namespace OrderSystem

/-- A JSON scalar value as it arrives in a parsed request body. -/
inductive JsonVal where
  | null
  | bool (b : Bool)
  | int (n : Int)
  | num (q : ℚ)
  | str (s : String)
deriving DecidableEq

/-- Python truthiness of a JSON value (`if not data.get(...)`). -/
def pyTruthy : JsonVal → Bool
  | .null => false
  | .bool b => b
  | .int n => n != 0
  | .num q => q != 0
  | .str s => s != ""

/-- Truncation toward zero, the behaviour of Python `int()` on a number. -/
def ratTrunc (q : ℚ) : Int :=
  if 0 ≤ q then ⌊q⌋ else ⌈q⌉

/-- Code points starting a run of ten Unicode decimal digits (category Nd):
ASCII, Arabic-Indic, Extended Arabic-Indic, NKo, the Indic scripts, Thai,
Lao, Tibetan, Myanmar, Khmer, Mongolian, the South-East-Asian scripts, Vai,
fullwidth, the supplementary-plane scripts, the mathematical digit styles,
Adlam and segmented digits. CPython's `int()` maps any digit from any of
these runs to its decimal value. -/
def ndZeroPoints : List Nat :=
  [0x0030, 0x0660, 0x06F0, 0x07C0, 0x0966, 0x09E6, 0x0A66, 0x0AE6, 0x0B66,
   0x0BE6, 0x0C66, 0x0CE6, 0x0D66, 0x0DE6, 0x0E50, 0x0ED0, 0x0F20, 0x1040,
   0x1090, 0x17E0, 0x1810, 0x1946, 0x19D0, 0x1A80, 0x1A90, 0x1B50, 0x1BB0,
   0x1C40, 0x1C50, 0xA620, 0xA8D0, 0xA900, 0xA9D0, 0xA9F0, 0xAA50, 0xABF0,
   0xFF10, 0x104A0, 0x10D30, 0x11066, 0x110F0, 0x11136, 0x111D0, 0x112F0,
   0x11450, 0x114D0, 0x11650, 0x116C0, 0x11730, 0x118E0, 0x11950, 0x11C50,
   0x11D50, 0x11DA0, 0x11F50, 0x16A60, 0x16AC0, 0x16B50, 0x1D7CE, 0x1D7D8,
   0x1D7E2, 0x1D7EC, 0x1D7F6, 0x1E140, 0x1E2F0, 0x1E4F0, 0x1E950, 0x1FBF0]

/-- The decimal value of a Unicode decimal digit, `none` for any other
character. -/
def pyDigitVal (c : Char) : Option Nat :=
  (ndZeroPoints.find? fun z =>
    decide (z ≤ c.toNat) && decide (c.toNat < z + 10)).map
    (fun z => c.toNat - z)

/-- Python's whitespace set (Py_UNICODE_ISSPACE): ASCII controls 9 to 13
and 28 to 31, space, next-line, no-break space and the Unicode space and
line/paragraph separators. -/
def pyIsSpace (c : Char) : Bool :=
  ([0x09, 0x0A, 0x0B, 0x0C, 0x0D, 0x1C, 0x1D, 0x1E, 0x1F, 0x20, 0x85, 0xA0,
    0x1680, 0x2000, 0x2001, 0x2002, 0x2003, 0x2004, 0x2005, 0x2006, 0x2007,
    0x2008, 0x2009, 0x200A, 0x2028, 0x2029, 0x202F, 0x205F, 0x3000] :
    List Nat).contains c.toNat

/-- The digit run of a Python integer string: one or more decimal digits
with single underscores allowed only between digits (no leading, trailing
or doubled underscore). The boolean records whether the previous character
was a digit. -/
def pyDigitRun : Nat → Bool → List Char → Option Nat
  | acc, afterDigit, [] => if afterDigit then some acc else none
  | acc, afterDigit, c :: cs =>
    if c = '_' then
      if afterDigit then pyDigitRun acc false cs else none
    else
      match pyDigitVal c with
      | some d => pyDigitRun (acc * 10 + d) true cs
      | none => none

/-- CPython's `int()` applied to a string: strip Python whitespace at both
ends, accept an optional ASCII sign, then require a digit run of Unicode
decimal digits with single underscores between digits; any other string
raises `ValueError`. -/
def pyIntOfString (s : String) : Option Int :=
  let cs := ((s.toList.dropWhile pyIsSpace).reverse.dropWhile pyIsSpace).reverse
  match cs with
  | [] => none
  | c :: rest =>
    if c = '+' then (pyDigitRun 0 false rest).map (fun n => (n : Int))
    else if c = '-' then (pyDigitRun 0 false rest).map (fun n => -(n : Int))
    else (pyDigitRun 0 false cs).map (fun n => (n : Int))

/-- Python `int(v)` on a JSON value: `some` on success, `none` when it raises
`ValueError`/`TypeError`. -/
def pyInt : JsonVal → Option Int
  | .null => none
  | .bool b => some (if b then 1 else 0)
  | .int n => some n
  | .num q => some (ratTrunc q)
  | .str s => pyIntOfString s

/-- Lookup by key in an association-list store (`query.filter_by(id=...)`). -/
def lookupKey {α β : Type} [DecidableEq α] : List (α × β) → α → Option β
  | [], _ => none
  | e :: es, k => if e.1 = k then some e.2 else lookupKey es k

/-- Replace the value stored under a key (committing a row update). -/
def setKey {α β : Type} [DecidableEq α] : List (α × β) → α → β → List (α × β)
  | [], _, _ => []
  | e :: es, k, v =>
    if e.1 = k then (k, v) :: setKey es k v else e :: setKey es k v

/-- Remove the rows stored under a key (`db.session.delete`). -/
def eraseKey {α β : Type} [DecidableEq α] : List (α × β) → α → List (α × β)
  | [], _ => []
  | e :: es, k => if e.1 = k then eraseKey es k else e :: eraseKey es k

/-- The product fields relevant to the saga (price, stock counter). -/
structure Product where
  price : ℚ
  stock_quantity : Int
deriving DecidableEq

/-- Response of the product-service stock PATCH endpoint. -/
inductive StockResp where
  | notFound
  | badRequest
  | insufficient (current : Int) (requested : Int)
  | ok (p : Product)
deriving DecidableEq

/-- HTTP status code of a stock-adjustment response. -/
def StockResp.code : StockResp → Nat
  | .notFound => 404
  | .badRequest => 400
  | .insufficient _ _ => 400
  | .ok _ => 200

/-- `update_stock` (PATCH /products/id/stock): find the product, read
`quantity_change`, reject if the new quantity would be negative, otherwise
commit `stock_quantity + quantity_change`. -/
def update_stock (ps : List (String × Product)) (pid : String)
    (body : Option Int) : StockResp × List (String × Product) :=
  match lookupKey ps pid with
  | none => (.notFound, ps)
  | some p =>
    match body with
    | none => (.badRequest, ps)
    | some quantity_change =>
      let new_quantity := p.stock_quantity + quantity_change
      if new_quantity < 0 then
        (.insufficient p.stock_quantity |quantity_change|, ps)
      else
        let p' : Product := { p with stock_quantity := new_quantity }
        (.ok p', setKey ps pid p')

/-- An order row (src/services/order-service/models.py). -/
structure Order where
  user_id : String
  product_id : String
  quantity : Int
  total_price : ℚ
  status : String
  created_at : Nat
  updated_at : Nat
deriving DecidableEq

/-- Combined durable state: the product store, the order store and the next
fresh order id. -/
structure SysState where
  products : List (String × Product)
  orders : List (Nat × Order)
  nextId : Nat
deriving DecidableEq

/-- A remote HTTP call issued by the order coordinator. -/
inductive RemoteCall where
  | getUser (uid : String)
  | getProduct (pid : String)
  | patchStock (pid : String) (delta : Int)
deriving DecidableEq

/-- Parsed JSON body of POST /orders. -/
structure CreateBody where
  user_id : Option String
  product_id : Option String
  quantity : Option JsonVal
deriving DecidableEq

/-- The field validation prefix of `create_order`: the `not data.get(...)`
checks followed by `int()` coercion of the quantity and the positivity
check.  Returns the validated triple, or `none` when some branch returned
a 400 validation response. -/
def parseCreate (body : CreateBody) : Option (String × String × Int) :=
  match body.user_id with
  | none => none
  | some uid =>
    if uid = "" then none else
    match body.product_id with
    | none => none
    | some pid =>
      if pid = "" then none else
      match body.quantity with
      | none => none
      | some v =>
        if pyTruthy v then
          match pyInt v with
          | none => none
          | some q => if q ≤ 0 then none else some (uid, pid, q)
        else none

/-- Response of POST /orders. -/
inductive CreateResp where
  | validationErr
  | userNotFound (uid : String)
  | productNotFound (pid : String)
  | insufficientStock (available : Int) (requested : Int)
  | reservationFailed
  | created (oid : Nat) (o : Order)
deriving DecidableEq

/-- HTTP status code of a POST /orders response. -/
def CreateResp.code : CreateResp → Nat
  | .validationErr => 400
  | .userNotFound _ => 404
  | .productNotFound _ => 404
  | .insufficientStock _ _ => 400
  | .reservationFailed => 500
  | .created _ _ => 201

/-- Result of an order-service handler: response, new durable state, and
the remote calls issued while handling the request. -/
structure CreateResult where
  resp : CreateResp
  st : SysState
  calls : List RemoteCall
deriving DecidableEq

/-- Remote-environment oracle for one POST /orders request: whether the user
GET returned 200, the product JSON snapshot the product GET returned (none =
non-200 or unreachable), and whether the stock PATCH reaches the product
service. -/
structure Env where
  userFound : Bool
  productResp : Option Product
  patchReachable : Bool
deriving DecidableEq

/-- `reduce_product_stock` / `restore_product_stock`: issue the PATCH when
the network is reachable, report success iff it returned 200; an unreachable
service is a failure with no effect. -/
def tryPatchStock (reachable : Bool) (ps : List (String × Product))
    (pid : String) (delta : Int) : Bool × List (String × Product) :=
  if reachable then
    let r := update_stock ps pid (some delta)
    (r.1.code == 200, r.2)
  else (false, ps)

/-- `create_order` (POST /orders): validate the body, resolve the user and
the product, snapshot-check stock, compute the total price, persist a
pending order, then issue the atomic stock decrement; if the decrement
fails, delete the just-created row and report a 500. -/
def create_order (env : Env) (now : Nat) (st : SysState) (body : CreateBody) :
    CreateResult :=
  match parseCreate body with
  | none => ⟨.validationErr, st, []⟩
  | some (uid, pid, quantity) =>
    let calls0 := [RemoteCall.getUser uid]
    if env.userFound then
      let calls1 := calls0 ++ [RemoteCall.getProduct pid]
      match env.productResp with
      | none => ⟨.productNotFound pid, st, calls1⟩
      | some product =>
        let product_stock := product.stock_quantity
        if product_stock < quantity then
          ⟨.insufficientStock product_stock quantity, st, calls1⟩
        else
          let total_price := product.price * (quantity : ℚ)
          let order : Order :=
            { user_id := uid, product_id := pid, quantity := quantity,
              total_price := total_price, status := "pending",
              created_at := now, updated_at := now }
          let oid := st.nextId
          let orders1 := (oid, order) :: st.orders
          let calls2 := calls1 ++ [RemoteCall.patchStock pid (-quantity)]
          let rs := tryPatchStock env.patchReachable st.products pid (-quantity)
          if rs.1 then
            ⟨.created oid order,
             ⟨rs.2, orders1, oid + 1⟩, calls2⟩
          else
            ⟨.reservationFailed,
             ⟨rs.2, eraseKey orders1 oid, oid + 1⟩, calls2⟩
    else ⟨.userNotFound uid, st, calls0⟩

/-- `get_order` (GET /orders/id): 200 when the row exists, else 404. -/
def get_order (st : SysState) (oid : Nat) : Nat :=
  match lookupKey st.orders oid with
  | none => 404
  | some _ => 200

/-- Response of PUT /orders/id. -/
inductive UpdateResp where
  | notFound
  | badRequest
  | restoreFailed
  | ok (o : Order)
deriving DecidableEq

/-- HTTP status code of a PUT /orders/id response. -/
def UpdateResp.code : UpdateResp → Nat
  | .notFound => 404
  | .badRequest => 400
  | .restoreFailed => 500
  | .ok _ => 200

/-- Result of PUT /orders/id. -/
structure UpdateResult where
  resp : UpdateResp
  st : SysState
  calls : List RemoteCall
deriving DecidableEq

/-- The five admissible order statuses. -/
def valid_statuses : List String :=
  ["pending", "confirmed", "shipped", "delivered", "cancelled"]

/-- `update_order` (PUT /orders/id): find the order, check the new status is
one of the five valid values, restore stock when transitioning into
`cancelled` from a non-`cancelled` state (failing the whole update if the
restoration fails), then commit the status. -/
def update_order (reachable : Bool) (now : Nat) (st : SysState) (oid : Nat)
    (body : Option String) : UpdateResult :=
  match lookupKey st.orders oid with
  | none => ⟨.notFound, st, []⟩
  | some o =>
    match body with
    | none => ⟨.badRequest, st, []⟩
    | some new_status =>
      if new_status ∈ valid_statuses then
        if new_status = "cancelled" ∧ o.status ≠ "cancelled" then
          let calls := [RemoteCall.patchStock o.product_id o.quantity]
          let rs := tryPatchStock reachable st.products o.product_id o.quantity
          if rs.1 then
            let o' := { o with status := new_status, updated_at := now }
            ⟨.ok o', ⟨rs.2, setKey st.orders oid o', st.nextId⟩, calls⟩
          else
            ⟨.restoreFailed, ⟨rs.2, st.orders, st.nextId⟩, calls⟩
        else
          let o' := { o with status := new_status, updated_at := now }
          ⟨.ok o', ⟨st.products, setKey st.orders oid o', st.nextId⟩, []⟩
      else ⟨.badRequest, st, []⟩

/-- Response of POST /orders/id/confirm. -/
inductive ConfirmResp where
  | notFound
  | invalidState (s : String)
  | ok (o : Order)
deriving DecidableEq

/-- HTTP status code of a confirm response. -/
def ConfirmResp.code : ConfirmResp → Nat
  | .notFound => 404
  | .invalidState _ => 400
  | .ok _ => 200

/-- `confirm_order` (POST /orders/id/confirm): succeed only from status
`pending`, writing `confirmed`. -/
def confirm_order (now : Nat) (st : SysState) (oid : Nat) :
    ConfirmResp × SysState :=
  match lookupKey st.orders oid with
  | none => (.notFound, st)
  | some o =>
    if o.status ≠ "pending" then (.invalidState o.status, st)
    else
      let o' := { o with status := "confirmed", updated_at := now }
      (.ok o', ⟨st.products, setKey st.orders oid o', st.nextId⟩)

/-- Response of DELETE /orders/id. -/
inductive DeleteResp where
  | notFound
  | badState (s : String)
  | ok
deriving DecidableEq

/-- HTTP status code of a delete response. -/
def DeleteResp.code : DeleteResp → Nat
  | .notFound => 404
  | .badState _ => 400
  | .ok => 200

/-- Result of DELETE /orders/id. -/
structure DeleteResult where
  resp : DeleteResp
  st : SysState
  calls : List RemoteCall
deriving DecidableEq

/-- `delete_order` (DELETE /orders/id): permitted only from `pending` or
`cancelled`; when `pending`, a best-effort stock restoration is issued and
its result is not inspected before the row is deleted. -/
def delete_order (reachable : Bool) (st : SysState) (oid : Nat) :
    DeleteResult :=
  match lookupKey st.orders oid with
  | none => ⟨.notFound, st, []⟩
  | some o =>
    if o.status ∈ (["pending", "cancelled"] : List String) then
      if o.status = "pending" then
        let rs := tryPatchStock reachable st.products o.product_id o.quantity
        ⟨.ok, ⟨rs.2, eraseKey st.orders oid, st.nextId⟩,
         [RemoteCall.patchStock o.product_id o.quantity]⟩
      else
        ⟨.ok, ⟨st.products, eraseKey st.orders oid, st.nextId⟩, []⟩
    else ⟨.badState o.status, st, []⟩

/-- All stored orders carry one of the five valid statuses. -/
def statusesValid (os : List (Nat × Order)) : Prop :=
  ∀ e ∈ os, e.2.status ∈ valid_statuses

/-! ## Store lemmas -/

theorem lookupKey_setKey_self {α β : Type} [DecidableEq α]
    (l : List (α × β)) (k : α) (v b : β) (h : lookupKey l k = some b) :
    lookupKey (setKey l k v) k = some v := by
  induction l with
  | nil => simp [lookupKey] at h
  | cons e es ih =>
    by_cases hk : e.1 = k
    · simp [setKey, hk, lookupKey]
    · simp only [lookupKey, if_neg hk] at h
      simp [setKey, hk, lookupKey, ih h]

theorem lookupKey_setKey_ne {α β : Type} [DecidableEq α]
    (l : List (α × β)) (k : α) (v : β) (k' : α) (h : k' ≠ k) :
    lookupKey (setKey l k v) k' = lookupKey l k' := by
  induction l with
  | nil => simp [setKey]
  | cons e es ih =>
    by_cases hk : e.1 = k
    · have : ¬ k = k' := fun hc => h hc.symm
      simp [setKey, hk, lookupKey, this, ih, hk.symm ▸ this]
    · simp [setKey, hk, lookupKey, ih]

theorem mem_setKey {α β : Type} [DecidableEq α]
    {l : List (α × β)} {k : α} {v : β} {e : α × β}
    (h : e ∈ setKey l k v) : e = (k, v) ∨ e ∈ l := by
  induction l with
  | nil => simp [setKey] at h
  | cons a es ih =>
    by_cases hk : a.1 = k
    · simp only [setKey, if_pos hk, List.mem_cons] at h
      rcases h with h | h
      · exact Or.inl h
      · rcases ih h with h' | h'
        · exact Or.inl h'
        · exact Or.inr (List.mem_cons_of_mem _ h')
    · simp only [setKey, if_neg hk, List.mem_cons] at h
      rcases h with h | h
      · exact Or.inr (h ▸ List.mem_cons_self _ _)
      · rcases ih h with h' | h'
        · exact Or.inl h'
        · exact Or.inr (List.mem_cons_of_mem _ h')

theorem mem_eraseKey {α β : Type} [DecidableEq α]
    {l : List (α × β)} {k : α} {e : α × β}
    (h : e ∈ eraseKey l k) : e ∈ l := by
  induction l with
  | nil => simp [eraseKey] at h
  | cons a es ih =>
    by_cases hk : a.1 = k
    · simp only [eraseKey, if_pos hk] at h
      exact List.mem_cons_of_mem _ (ih h)
    · simp only [eraseKey, if_neg hk, List.mem_cons] at h
      rcases h with h | h
      · exact h ▸ List.mem_cons_self _ _
      · exact List.mem_cons_of_mem _ (ih h)

theorem eraseKey_of_lookupKey_none {α β : Type} [DecidableEq α]
    (l : List (α × β)) (k : α) (h : lookupKey l k = none) :
    eraseKey l k = l := by
  induction l with
  | nil => simp [eraseKey]
  | cons e es ih =>
    by_cases hk : e.1 = k
    · simp [lookupKey, hk] at h
    · simp only [lookupKey, if_neg hk] at h
      simp [eraseKey, hk, ih h]

theorem lookupKey_eraseKey_self {α β : Type} [DecidableEq α]
    (l : List (α × β)) (k : α) :
    lookupKey (eraseKey l k) k = none := by
  induction l with
  | nil => simp [eraseKey, lookupKey]
  | cons e es ih =>
    by_cases hk : e.1 = k
    · simp [eraseKey, hk, ih]
    · simp [eraseKey, hk, lookupKey, ih]

theorem eraseKey_cons_self {α β : Type} [DecidableEq α]
    (l : List (α × β)) (k : α) (v : β) :
    eraseKey ((k, v) :: l) k = eraseKey l k := by
  simp [eraseKey]

/-! ## Stock-patch helper lemmas -/

theorem tryPatchStock_fst_false (r : Bool) (ps : List (String × Product))
    (pid : String) (d : Int)
    (h : (tryPatchStock r ps pid d).1 = false) :
    (tryPatchStock r ps pid d).2 = ps := by
  cases r with
  | false => rfl
  | true =>
    simp only [tryPatchStock, if_pos rfl] at h ⊢
    cases hp : lookupKey ps pid with
    | none => simp [update_stock, hp]
    | some p =>
      by_cases hlt : p.stock_quantity + d < 0
      · simp [update_stock, hp, hlt]
      · simp [update_stock, hp, hlt, StockResp.code] at h

theorem tryPatchStock_fst_true (r : Bool) (ps : List (String × Product))
    (pid : String) (d : Int) (cp : Product)
    (hcp : lookupKey ps pid = some cp)
    (h : (tryPatchStock r ps pid d).1 = true) :
    0 ≤ cp.stock_quantity + d ∧
    (tryPatchStock r ps pid d).2 =
      setKey ps pid { cp with stock_quantity := cp.stock_quantity + d } := by
  cases r with
  | false => simp [tryPatchStock] at h
  | true =>
    simp only [tryPatchStock, if_pos rfl] at h ⊢
    by_cases hlt : cp.stock_quantity + d < 0
    · simp [update_stock, hcp, hlt, StockResp.code] at h
    · refine ⟨le_of_not_lt hlt, ?_⟩
      simp [update_stock, hcp, hlt]

/-! ## Sanity checks of the modelled Python string coercion -/

/-- Behaviour of the modelled `int()` on strings: sign prefixes, whitespace
padding, underscore grouping and non-ASCII decimal digits are accepted with
their Python values; malformed spellings are rejected. -/
theorem pyIntOfString_examples :
    pyIntOfString "3" = some 3 ∧
    pyIntOfString "+3" = some 3 ∧
    pyIntOfString "-3" = some (-3) ∧
    pyIntOfString "  3  " = some 3 ∧
    pyIntOfString "3_000" = some 3000 ∧
    pyIntOfString "١٢٣" = some 123 ∧
    pyIntOfString "３" = some 3 ∧
    pyIntOfString "" = none ∧
    pyIntOfString " " = none ∧
    pyIntOfString "+" = none ∧
    pyIntOfString "_3" = none ∧
    pyIntOfString "3_" = none ∧
    pyIntOfString "3__0" = none ∧
    pyIntOfString "+_3" = none ∧
    pyIntOfString "3.0" = none ∧
    pyIntOfString "abc" = none ∧
    pyIntOfString "+ 3" = none := by
  decide

/-! ## Claim theorems -/

/-- C2: `update_stock` rejects, leaving the store unchanged and answering
with an insufficient-stock error (400), any delta that would drive the
product's stock negative; it applies every other delta by setting the stock
to `current + delta` (200), touching no other product; and it preserves
non-negativity of every stored stock quantity. -/
theorem update_stock_adjustment (ps : List (String × Product)) (pid : String)
    (p : Product) (d : Int) (hp : lookupKey ps pid = some p) :
    (p.stock_quantity + d < 0 →
      (update_stock ps pid (some d)).1 = .insufficient p.stock_quantity |d| ∧
      (update_stock ps pid (some d)).1.code = 400 ∧
      (update_stock ps pid (some d)).2 = ps) ∧
    (0 ≤ p.stock_quantity + d →
      (update_stock ps pid (some d)).1 =
        .ok { p with stock_quantity := p.stock_quantity + d } ∧
      (update_stock ps pid (some d)).1.code = 200 ∧
      lookupKey (update_stock ps pid (some d)).2 pid =
        some { p with stock_quantity := p.stock_quantity + d } ∧
      (∀ k, k ≠ pid →
        lookupKey (update_stock ps pid (some d)).2 k = lookupKey ps k)) ∧
    ((∀ e ∈ ps, 0 ≤ e.2.stock_quantity) →
      ∀ e ∈ (update_stock ps pid (some d)).2, 0 ≤ e.2.stock_quantity) := by
  refine ⟨fun hlt => ?_, fun hge => ?_, fun hnn => ?_⟩
  · simp [update_stock, hp, hlt, StockResp.code]
  · have hlt : ¬ p.stock_quantity + d < 0 := not_lt.mpr hge
    refine ⟨?_, ?_, ?_, ?_⟩
    · simp [update_stock, hp, hlt]
    · simp [update_stock, hp, hlt, StockResp.code]
    · simp only [update_stock, hp, if_neg hlt]
      exact lookupKey_setKey_self _ _ _ _ hp
    · intro k hk
      simp only [update_stock, hp, if_neg hlt]
      exact lookupKey_setKey_ne _ _ _ _ hk
  · intro e he
    by_cases hlt : p.stock_quantity + d < 0
    · simp only [update_stock, hp, if_pos hlt] at he
      exact hnn e he
    · simp only [update_stock, hp, if_neg hlt] at he
      rcases mem_setKey he with h | h
      · subst h
        simpa using not_lt.mp hlt
      · exact hnn e h

/-- C5: `confirm_order` on an existing order succeeds (writing status
`confirmed`, HTTP 200) exactly when the current status is `pending`; for
any other current status it answers with an invalid-state error (HTTP 400)
and leaves the whole state unchanged. -/
theorem confirm_order_pending_only (now : Nat) (st : SysState) (oid : Nat)
    (o : Order) (ho : lookupKey st.orders oid = some o) :
    ((confirm_order now st oid).1.code = 200 ↔ o.status = "pending") ∧
    (o.status = "pending" →
      (confirm_order now st oid).1 =
        .ok { o with status := "confirmed", updated_at := now } ∧
      lookupKey (confirm_order now st oid).2.orders oid =
        some { o with status := "confirmed", updated_at := now }) ∧
    (o.status ≠ "pending" →
      (confirm_order now st oid).1 = .invalidState o.status ∧
      (confirm_order now st oid).1.code = 400 ∧
      (confirm_order now st oid).2 = st) := by
  by_cases hs : o.status = "pending"
  · refine ⟨?_, fun _ => ⟨?_, ?_⟩, fun hn => absurd hs hn⟩
    · simp [confirm_order, ho, hs, ConfirmResp.code]
    · simp [confirm_order, ho, hs]
    · simp only [confirm_order, ho, hs, ne_eq, not_true_eq_false, if_neg,
        not_false_eq_true, if_false]
      exact lookupKey_setKey_self _ _ _ _ ho
  · refine ⟨?_, fun hp => absurd hp hs, fun _ => ?_⟩
    · simp [confirm_order, ho, hs, ConfirmResp.code]
    · simp [confirm_order, ho, hs, ConfirmResp.code]

/-- C1: when the stock-reservation call fails after the pending order row
was persisted, `create_order` deletes the just-created row and reports a
stock-reservation failure (HTTP 500); afterwards the order store and the
product store are exactly as before the request and a lookup of the new
order id returns 404. -/
theorem create_order_compensation (env : Env) (now : Nat) (st : SysState)
    (body : CreateBody) (uid pid : String) (q : Int) (p : Product)
    (hparse : parseCreate body = some (uid, pid, q))
    (huser : env.userFound = true)
    (hprod : env.productResp = some p)
    (hstock : ¬ p.stock_quantity < q)
    (hres : (tryPatchStock env.patchReachable st.products pid (-q)).1 = false)
    (hfresh : lookupKey st.orders st.nextId = none) :
    (create_order env now st body).resp = .reservationFailed ∧
    (create_order env now st body).resp.code = 500 ∧
    (create_order env now st body).st.orders = st.orders ∧
    (create_order env now st body).st.products = st.products ∧
    get_order (create_order env now st body).st st.nextId = 404 := by
  have hps := tryPatchStock_fst_false _ _ _ _ hres
  have hcons : ∀ o : Order,
      eraseKey ((st.nextId, o) :: st.orders) st.nextId = st.orders := by
    intro o
    rw [eraseKey_cons_self, eraseKey_of_lookupKey_none _ _ hfresh]
  refine ⟨?_, ?_, ?_, ?_, ?_⟩ <;>
    simp [create_order, hparse, huser, hprod, hstock, hres, hps, hcons,
      get_order, CreateResp.code, hfresh]

/-- C3: on a successful creation the persisted order's total price is
exactly the catalog-snapshot unit price times the requested quantity, the
order row is stored with status `pending`, and the product's stored stock
quantity decreases by exactly the requested quantity. -/
theorem create_order_success_effects (env : Env) (now : Nat) (st : SysState)
    (body : CreateBody) (uid pid : String) (q : Int) (p cp : Product)
    (hparse : parseCreate body = some (uid, pid, q))
    (huser : env.userFound = true)
    (hprod : env.productResp = some p)
    (hstock : ¬ p.stock_quantity < q)
    (hres : (tryPatchStock env.patchReachable st.products pid (-q)).1 = true)
    (hcp : lookupKey st.products pid = some cp) :
    (create_order env now st body).resp =
      .created st.nextId
        { user_id := uid, product_id := pid, quantity := q,
          total_price := p.price * (q : ℚ), status := "pending",
          created_at := now, updated_at := now } ∧
    (create_order env now st body).resp.code = 201 ∧
    lookupKey (create_order env now st body).st.orders st.nextId =
      some { user_id := uid, product_id := pid, quantity := q,
             total_price := p.price * (q : ℚ), status := "pending",
             created_at := now, updated_at := now } ∧
    lookupKey (create_order env now st body).st.products pid =
      some { cp with stock_quantity := cp.stock_quantity - q } := by
  obtain ⟨hge, hps⟩ := tryPatchStock_fst_true _ _ _ _ _ hcp hres
  have hsub : cp.stock_quantity + -q = cp.stock_quantity - q := by ring
  rw [hsub] at hps
  refine ⟨?_, ?_, ?_, ?_⟩
  · simp [create_order, hparse, huser, hprod, hstock, hres]
  · simp [create_order, hparse, huser, hprod, hstock, hres, CreateResp.code]
  · simp [create_order, hparse, huser, hprod, hstock, hres, lookupKey]
  · simp only [create_order, hparse, huser, hprod, if_neg hstock, hres,
      if_pos, if_true, ite_true]
    simpa [hps] using lookupKey_setKey_self st.products pid
      { cp with stock_quantity := cp.stock_quantity - q } cp hcp

/-- C6: when the requested quantity exceeds the snapshot stock quantity,
`create_order` answers with an insufficient-stock error (HTTP 400) carrying
the available and requested amounts, leaves the durable state untouched,
and has issued only the two GETs — in particular no stock PATCH. -/
theorem create_order_insufficient_stock (env : Env) (now : Nat)
    (st : SysState) (body : CreateBody) (uid pid : String) (q : Int)
    (p : Product)
    (hparse : parseCreate body = some (uid, pid, q))
    (huser : env.userFound = true)
    (hprod : env.productResp = some p)
    (hlt : p.stock_quantity < q) :
    (create_order env now st body).resp =
      .insufficientStock p.stock_quantity q ∧
    (create_order env now st body).resp.code = 400 ∧
    (create_order env now st body).st = st ∧
    (create_order env now st body).calls =
      [RemoteCall.getUser uid, RemoteCall.getProduct pid] ∧
    (∀ pid' d, RemoteCall.patchStock pid' d ∉
      (create_order env now st body).calls) := by
  refine ⟨?_, ?_, ?_, ?_, ?_⟩ <;>
    simp [create_order, hparse, huser, hprod, hlt, CreateResp.code]

/-- C7 (amended): whenever the body-validation prefix of `create_order`
rejects the request — user_id or product_id absent or empty, quantity
absent or falsy, its Python `int()` coercion failing, or the coerced value
non-positive — the coordinator answers 400, issues no remote call and
leaves the durable state untouched. -/
theorem create_order_validation (env : Env) (now : Nat) (st : SysState)
    (body : CreateBody) (h : parseCreate body = none) :
    (create_order env now st body).resp = .validationErr ∧
    (create_order env now st body).resp.code = 400 ∧
    (create_order env now st body).st = st ∧
    (create_order env now st body).calls = [] := by
  simp [create_order, h, CreateResp.code]

/-- The JSON number 3.7 (37/10), a value that is not an integer. -/
def threePointSeven : ℚ := ⟨37, 10, by norm_num, by norm_num⟩

/-- C7 (counterexample): a quantity that is not a positive integer can pass
validation. The non-integer JSON number 3.7 is truncated by Python `int()`
to 3, and the numeric string "+3" is parsed to 3, so in both cases the
coordinator proceeds to call the user registry (here answering 404 because
the user is absent) instead of returning 400 with no remote calls. -/
theorem create_order_validation_cex :
    threePointSeven.den = 10 ∧
    ratTrunc threePointSeven = 3 ∧
    parseCreate ⟨some "u1", some "p1", some (.num threePointSeven)⟩ =
      some ("u1", "p1", 3) ∧
    (create_order ⟨false, none, false⟩ 0 ⟨[], [], 0⟩
      ⟨some "u1", some "p1", some (.num threePointSeven)⟩).resp.code = 404 ∧
    (create_order ⟨false, none, false⟩ 0 ⟨[], [], 0⟩
      ⟨some "u1", some "p1", some (.num threePointSeven)⟩).calls =
      [RemoteCall.getUser "u1"] ∧
    pyInt (.str "+3") = some 3 ∧
    (create_order ⟨false, none, false⟩ 0 ⟨[], [], 0⟩
      ⟨some "u1", some "p1", some (.str "+3")⟩).resp.code = 404 ∧
    (create_order ⟨false, none, false⟩ 0 ⟨[], [], 0⟩
      ⟨some "u1", some "p1", some (.str "+3")⟩).calls =
      [RemoteCall.getUser "u1"] := by
  decide

/-- C4: for an existing order, updating the status to `cancelled` from a
non-`cancelled` state issues exactly one stock-restoration PATCH of
`+quantity`; if that restoration fails the update answers 500 and the whole
state — in particular the order's status — is unchanged; and updating an
already-`cancelled` order to `cancelled` issues no restoration call. -/
theorem update_order_cancel_compensation (reach : Bool) (now : Nat)
    (st : SysState) (oid : Nat) (o : Order)
    (ho : lookupKey st.orders oid = some o) :
    (o.status ≠ "cancelled" →
      (update_order reach now st oid (some "cancelled")).calls =
        [RemoteCall.patchStock o.product_id o.quantity]) ∧
    (o.status ≠ "cancelled" →
      (tryPatchStock reach st.products o.product_id o.quantity).1 = false →
      (update_order reach now st oid (some "cancelled")).resp =
        .restoreFailed ∧
      (update_order reach now st oid (some "cancelled")).resp.code = 500 ∧
      (update_order reach now st oid (some "cancelled")).st = st ∧
      lookupKey
        (update_order reach now st oid (some "cancelled")).st.orders oid =
        some o) ∧
    (o.status = "cancelled" →
      (update_order reach now st oid (some "cancelled")).calls = [] ∧
      (update_order reach now st oid (some "cancelled")).resp =
        .ok { o with status := "cancelled", updated_at := now }) := by
  have hmem : "cancelled" ∈ valid_statuses := by decide
  refine ⟨fun hnc => ?_, fun hnc hfail => ?_, fun hc => ?_⟩
  · by_cases hres :
      (tryPatchStock reach st.products o.product_id o.quantity).1 = true
    · simp [update_order, ho, hmem, hnc, hres]
    · simp [update_order, ho, hmem, hnc, Bool.not_eq_true] at hres ⊢
      simp [hres]
  · have hps := tryPatchStock_fst_false _ _ _ _ hfail
    have hst : (update_order reach now st oid (some "cancelled")).st = st := by
      simp [update_order, ho, hmem, hnc, hfail, hps]
    refine ⟨?_, ?_, hst, ?_⟩
    · simp [update_order, ho, hmem, hnc, hfail]
    · simp [update_order, ho, hmem, hnc, hfail, UpdateResp.code]
    · rw [hst]
      exact ho
  · simp [update_order, ho, hmem, hc]

/-- C8: deleting an existing order succeeds exactly when its status is
`pending` or `cancelled` (otherwise 400 with nothing changed); deleting a
`pending` order issues one best-effort restoration PATCH of `+quantity` and
deletes the row no matter how that PATCH fares, while deleting a
`cancelled` order deletes the row with no restoration call. -/
theorem delete_order_policy (reach : Bool) (st : SysState) (oid : Nat)
    (o : Order) (ho : lookupKey st.orders oid = some o) :
    ((delete_order reach st oid).resp = .ok ↔
      o.status = "pending" ∨ o.status = "cancelled") ∧
    (o.status = "pending" →
      (delete_order reach st oid).resp = .ok ∧
      lookupKey (delete_order reach st oid).st.orders oid = none ∧
      (delete_order reach st oid).calls =
        [RemoteCall.patchStock o.product_id o.quantity]) ∧
    (o.status = "cancelled" →
      (delete_order reach st oid).resp = .ok ∧
      lookupKey (delete_order reach st oid).st.orders oid = none ∧
      (delete_order reach st oid).calls = [] ∧
      (delete_order reach st oid).st.products = st.products) ∧
    (¬ (o.status = "pending" ∨ o.status = "cancelled") →
      (delete_order reach st oid).resp = .badState o.status ∧
      (delete_order reach st oid).resp.code = 400 ∧
      (delete_order reach st oid).st = st ∧
      (delete_order reach st oid).calls = []) := by
  by_cases hp : o.status = "pending"
  · refine ⟨?_, fun _ => ⟨?_, ?_, ?_⟩, fun hc => ?_, fun hn => ?_⟩
    · simp [delete_order, ho, hp]
    · simp [delete_order, ho, hp]
    · simp [delete_order, ho, hp, lookupKey_eraseKey_self]
    · simp [delete_order, ho, hp]
    · rw [hp] at hc
      exact absurd hc.symm (by decide)
    · exact absurd (Or.inl hp) hn
  · by_cases hc : o.status = "cancelled"
    · refine ⟨?_, fun h => absurd h hp, fun _ => ⟨?_, ?_, ?_, ?_⟩,
        fun hn => absurd (Or.inr hc) hn⟩
      · simp [delete_order, ho, hc, hp]
      · simp [delete_order, ho, hc, hp]
      · simp [delete_order, ho, hc, hp, lookupKey_eraseKey_self]
      · simp [delete_order, ho, hc, hp]
      · simp [delete_order, ho, hc, hp]
    · refine ⟨?_, fun h => absurd h hp, fun h => absurd h hc, fun _ => ?_⟩
      · simp [delete_order, ho, hp, hc]
      · refine ⟨?_, ?_, ?_, ?_⟩ <;>
          simp [delete_order, ho, hp, hc, DeleteResp.code]

/-- C9: a status update via PUT to any valid status other than `cancelled`
issues no remote call, leaves the product store and the id counter
untouched, and rewrites only the targeted order's status and updated_at
timestamp, leaving every other order row unchanged. -/
theorem update_order_noncancel_frame (reach : Bool) (now : Nat)
    (st : SysState) (oid : Nat) (o : Order) (s : String)
    (ho : lookupKey st.orders oid = some o)
    (hs : s ∈ valid_statuses) (hnc : s ≠ "cancelled") :
    (update_order reach now st oid (some s)).calls = [] ∧
    (update_order reach now st oid (some s)).resp =
      .ok { o with status := s, updated_at := now } ∧
    (update_order reach now st oid (some s)).st.products = st.products ∧
    (update_order reach now st oid (some s)).st.nextId = st.nextId ∧
    lookupKey (update_order reach now st oid (some s)).st.orders oid =
      some { o with status := s, updated_at := now } ∧
    (∀ k, k ≠ oid →
      lookupKey (update_order reach now st oid (some s)).st.orders k =
        lookupKey st.orders k) := by
  have hcond : ¬ (s = "cancelled" ∧ o.status ≠ "cancelled") :=
    fun h => hnc h.1
  refine ⟨?_, ?_, ?_, ?_, ?_, ?_⟩
  · simp [update_order, ho, hs, hcond]
  · simp [update_order, ho, hs, hcond]
  · simp [update_order, ho, hs, hcond]
  · simp [update_order, ho, hs, hcond]
  · simp only [update_order, ho, if_pos hs, if_neg hcond]
    exact lookupKey_setKey_self _ _ _ _ ho
  · intro k hk
    simp only [update_order, ho, if_pos hs, if_neg hcond]
    exact lookupKey_setKey_ne _ _ _ _ hk

/-! ## Status-invariant helper lemmas -/

theorem statusesValid_cons {os : List (Nat × Order)} {k : Nat} {o : Order}
    (h : statusesValid os) (ho : o.status ∈ valid_statuses) :
    statusesValid ((k, o) :: os) := by
  intro e he
  rcases List.mem_cons.mp he with h' | h'
  · subst h'
    exact ho
  · exact h e h'

theorem statusesValid_eraseKey {os : List (Nat × Order)} {k : Nat}
    (h : statusesValid os) : statusesValid (eraseKey os k) :=
  fun e he => h e (mem_eraseKey he)

theorem statusesValid_setKey {os : List (Nat × Order)} {k : Nat} {o' : Order}
    (h : statusesValid os) (ho' : o'.status ∈ valid_statuses) :
    statusesValid (setKey os k o') := by
  intro e he
  rcases mem_setKey he with h' | h'
  · subst h'
    exact ho'
  · exact h e h'

/-- C10: every coordinator operation keeps each stored order's status inside
the five-value enum: creation only ever persists status `pending`; the
generic update rejects any status outside the enum with 400 and no state
change; confirm only ever writes `confirmed`; and create, update, confirm
and delete each preserve validity of all stored statuses. -/
theorem order_status_invariant :
    (∀ env now st body oid o,
      (create_order env now st body).resp = .created oid o →
      o.status = "pending") ∧
    (∀ env now st body, statusesValid st.orders →
      statusesValid (create_order env now st body).st.orders) ∧
    (∀ reach now st oid s o, lookupKey st.orders oid = some o →
      s ∉ valid_statuses →
      (update_order reach now st oid (some s)).resp = .badRequest ∧
      (update_order reach now st oid (some s)).resp.code = 400 ∧
      (update_order reach now st oid (some s)).st = st) ∧
    (∀ reach now st oid body, statusesValid st.orders →
      statusesValid (update_order reach now st oid body).st.orders) ∧
    (∀ now st oid o', (confirm_order now st oid).1 = .ok o' →
      o'.status = "confirmed") ∧
    (∀ now st oid, statusesValid st.orders →
      statusesValid (confirm_order now st oid).2.orders) ∧
    (∀ reach st oid, statusesValid st.orders →
      statusesValid (delete_order reach st oid).st.orders) := by
  have hpend : ("pending" : String) ∈ valid_statuses := by decide
  have hconf : ("confirmed" : String) ∈ valid_statuses := by decide
  refine ⟨?_, ?_, ?_, ?_, ?_, ?_, ?_⟩
  · intro env now st body oid o h
    cases hp : parseCreate body with
    | none => simp [create_order, hp] at h
    | some t =>
      obtain ⟨uid, pid, q⟩ := t
      cases hu : env.userFound with
      | false => simp [create_order, hp, hu] at h
      | true =>
        cases hpr : env.productResp with
        | none => simp [create_order, hp, hu, hpr] at h
        | some p =>
          by_cases hlt : p.stock_quantity < q
          · simp [create_order, hp, hu, hpr, hlt] at h
          · by_cases hres :
              (tryPatchStock env.patchReachable st.products pid (-q)).1 = true
            · simp [create_order, hp, hu, hpr, hlt, hres] at h
              rw [← h.2]
            · simp [create_order, hp, hu, hpr, hlt, hres] at h
  · intro env now st body hv
    cases hp : parseCreate body with
    | none => simpa [create_order, hp] using hv
    | some t =>
      obtain ⟨uid, pid, q⟩ := t
      cases hu : env.userFound with
      | false => simpa [create_order, hp, hu] using hv
      | true =>
        cases hpr : env.productResp with
        | none => simpa [create_order, hp, hu, hpr] using hv
        | some p =>
          by_cases hlt : p.stock_quantity < q
          · simpa [create_order, hp, hu, hpr, hlt] using hv
          · by_cases hres :
              (tryPatchStock env.patchReachable st.products pid (-q)).1 = true
            · simp only [create_order, hp, hu, hpr, if_neg hlt, hres,
                if_true, ite_true]
              exact statusesValid_cons hv hpend
            · rw [Bool.not_eq_true] at hres
              simp [create_order, hp, hu, hpr, hlt, hres]
              exact statusesValid_eraseKey (statusesValid_cons hv hpend)
  · intro reach now st oid s o ho hs
    refine ⟨?_, ?_, ?_⟩ <;> simp [update_order, ho, hs, UpdateResp.code]
  · intro reach now st oid body hv
    cases ho : lookupKey st.orders oid with
    | none => simpa [update_order, ho] using hv
    | some o =>
      cases body with
      | none => simpa [update_order, ho] using hv
      | some s =>
        by_cases hs : s ∈ valid_statuses
        · by_cases hcond : s = "cancelled" ∧ o.status ≠ "cancelled"
          · by_cases hres :
              (tryPatchStock reach st.products o.product_id o.quantity).1
                = true
            · simp only [update_order, ho, if_pos hs, if_pos hcond, hres,
                if_true, ite_true]
              exact statusesValid_setKey hv hs
            · simp only [Bool.not_eq_true] at hres
              simpa [update_order, ho, hs, hcond, hres] using hv
          · simp only [update_order, ho, if_pos hs, if_neg hcond]
            exact statusesValid_setKey hv hs
        · simpa [update_order, ho, hs] using hv
  · intro now st oid o' h
    cases ho : lookupKey st.orders oid with
    | none => simp [confirm_order, ho] at h
    | some o =>
      by_cases hs : o.status = "pending"
      · simp [confirm_order, ho, hs] at h
        rw [← h]
      · simp [confirm_order, ho, hs] at h
  · intro now st oid hv
    cases ho : lookupKey st.orders oid with
    | none => simpa [confirm_order, ho] using hv
    | some o =>
      by_cases hs : o.status = "pending"
      · simp [confirm_order, ho, hs]
        exact statusesValid_setKey hv hconf
      · simpa [confirm_order, ho, hs] using hv
  · intro reach st oid hv
    cases ho : lookupKey st.orders oid with
    | none => simpa [delete_order, ho] using hv
    | some o =>
      by_cases hmem : o.status ∈ (["pending", "cancelled"] : List String)
      · by_cases hp : o.status = "pending"
        · simp only [delete_order, ho, if_pos hmem, if_pos hp]
          exact statusesValid_eraseKey hv
        · simp only [delete_order, ho, if_pos hmem, if_neg hp]
          exact statusesValid_eraseKey hv
      · simpa [delete_order, ho, hmem] using hv

/-! ## Concrete fixtures for the witnesses -/

/-- Fixture product: unit price 5, ten units in stock. -/
def pOne : Product := ⟨5, 10⟩

/-- Fixture pending order for two units of product p1. -/
def oPending : Order := ⟨"u1", "p1", 2, 10, "pending", 0, 0⟩

/-- Fixture shipped order. -/
def oShipped : Order := ⟨"u1", "p1", 2, 10, "shipped", 0, 0⟩

/-- Fixture cancelled order. -/
def oCancelled : Order := ⟨"u1", "p1", 2, 10, "cancelled", 0, 0⟩

/-- Fixture state: one product, no orders. -/
def stEmpty : SysState := ⟨[("p1", pOne)], [], 0⟩

/-- Fixture state: one product and the pending order under id 7. -/
def stPending : SysState := ⟨[("p1", pOne)], [(7, oPending)], 8⟩

/-- Fixture state: one product and the shipped order under id 7. -/
def stShipped : SysState := ⟨[("p1", pOne)], [(7, oShipped)], 8⟩

/-- Fixture state: one product and the cancelled order under id 7. -/
def stCancelled : SysState := ⟨[("p1", pOne)], [(7, oCancelled)], 8⟩

/-- Fixture body: two units of p1 for user u1. -/
def bodyTwo : CreateBody := ⟨some "u1", some "p1", some (.int 2)⟩

/-- Fixture body: eleven units of p1, more than the stock of ten. -/
def bodyEleven : CreateBody := ⟨some "u1", some "p1", some (.int 11)⟩

/-! ## Witnesses -/

/-- Witness for C1: with the product service unreachable at reservation
time, a concrete creation request is compensated. -/
theorem create_order_compensation_witness :
    (create_order ⟨true, some pOne, false⟩ 0 stEmpty bodyTwo).resp =
      .reservationFailed ∧
    (create_order ⟨true, some pOne, false⟩ 0 stEmpty bodyTwo).resp.code =
      500 ∧
    (create_order ⟨true, some pOne, false⟩ 0 stEmpty bodyTwo).st.orders =
      stEmpty.orders ∧
    (create_order ⟨true, some pOne, false⟩ 0 stEmpty bodyTwo).st.products =
      stEmpty.products ∧
    get_order (create_order ⟨true, some pOne, false⟩ 0 stEmpty bodyTwo).st
      stEmpty.nextId = 404 :=
  create_order_compensation ⟨true, some pOne, false⟩ 0 stEmpty bodyTwo
    "u1" "p1" 2 pOne (by decide) rfl rfl (by decide) rfl rfl

/-- Witness for C2: a decrement of 20 against stock 10 is rejected with 400
leaving the store unchanged; a decrement of 3 succeeds with 200. -/
theorem update_stock_adjustment_witness :
    (update_stock [("p1", pOne)] "p1" (some (-20))).1.code = 400 ∧
    (update_stock [("p1", pOne)] "p1" (some (-20))).2 = [("p1", pOne)] ∧
    (update_stock [("p1", pOne)] "p1" (some (-3))).1.code = 200 := by
  have h1 := update_stock_adjustment [("p1", pOne)] "p1" pOne (-20) (by decide)
  have h2 := update_stock_adjustment [("p1", pOne)] "p1" pOne (-3) (by decide)
  exact ⟨(h1.1 (by decide)).2.1, (h1.1 (by decide)).2.2,
    (h2.2.1 (by decide)).2.1⟩

/-- Witness for C3: a successful concrete creation answers 201 and the
stored stock drops from 10 to 8. -/
theorem create_order_success_effects_witness :
    (create_order ⟨true, some pOne, true⟩ 0 stEmpty bodyTwo).resp.code =
      201 ∧
    lookupKey
      (create_order ⟨true, some pOne, true⟩ 0 stEmpty bodyTwo).st.products
      "p1" = some { pOne with stock_quantity := pOne.stock_quantity - 2 } := by
  have h := create_order_success_effects ⟨true, some pOne, true⟩ 0 stEmpty
    bodyTwo "u1" "p1" 2 pOne pOne (by decide) rfl rfl (by decide) (by decide)
    (by decide)
  exact ⟨h.2.1, h.2.2.2⟩

/-- Witness for C4: cancelling the pending order with the product service
unreachable issues one +2 restoration call, answers 500 and changes
nothing; cancelling the already-cancelled order issues no call. -/
theorem update_order_cancel_compensation_witness :
    (update_order false 1 stPending 7 (some "cancelled")).calls =
      [RemoteCall.patchStock "p1" 2] ∧
    (update_order false 1 stPending 7 (some "cancelled")).resp.code = 500 ∧
    (update_order false 1 stPending 7 (some "cancelled")).st = stPending ∧
    (update_order false 1 stCancelled 7 (some "cancelled")).calls = [] := by
  have h := update_order_cancel_compensation false 1 stPending 7 oPending
    (by decide)
  have h2 := update_order_cancel_compensation false 1 stCancelled 7
    oCancelled (by decide)
  exact ⟨h.1 (by decide), (h.2.1 (by decide) rfl).2.1,
    (h.2.1 (by decide) rfl).2.2.1, (h2.2.2 rfl).1⟩

/-- Witness for C5: confirming the pending order answers 200; confirming
the shipped order answers 400 and changes nothing. -/
theorem confirm_order_pending_only_witness :
    (confirm_order 1 stPending 7).1.code = 200 ∧
    (confirm_order 1 stShipped 7).1.code = 400 ∧
    (confirm_order 1 stShipped 7).2 = stShipped := by
  have h1 := confirm_order_pending_only 1 stPending 7 oPending (by decide)
  have h2 := confirm_order_pending_only 1 stShipped 7 oShipped (by decide)
  exact ⟨h1.1.mpr rfl, (h2.2.2 (by decide)).2.1, (h2.2.2 (by decide)).2.2⟩

/-- Witness for C6: requesting eleven units against stock ten yields the
insufficient-stock 400 with both amounts, no state change and only the two
GET calls. -/
theorem create_order_insufficient_stock_witness :
    (create_order ⟨true, some pOne, true⟩ 0 stEmpty bodyEleven).resp =
      .insufficientStock 10 11 ∧
    (create_order ⟨true, some pOne, true⟩ 0 stEmpty bodyEleven).resp.code =
      400 ∧
    (create_order ⟨true, some pOne, true⟩ 0 stEmpty bodyEleven).st =
      stEmpty ∧
    (create_order ⟨true, some pOne, true⟩ 0 stEmpty bodyEleven).calls =
      [RemoteCall.getUser "u1", RemoteCall.getProduct "p1"] := by
  have h := create_order_insufficient_stock ⟨true, some pOne, true⟩ 0
    stEmpty bodyEleven "u1" "p1" 11 pOne (by decide) rfl rfl (by decide)
  exact ⟨h.1, h.2.1, h.2.2.1, h.2.2.2.1⟩

/-- Witness for C7 (amended): a request with quantity 0 is rejected with
400 before any remote call. -/
theorem create_order_validation_witness :
    (create_order ⟨true, some pOne, true⟩ 0 stEmpty
      ⟨some "u1", some "p1", some (.int 0)⟩).resp.code = 400 ∧
    (create_order ⟨true, some pOne, true⟩ 0 stEmpty
      ⟨some "u1", some "p1", some (.int 0)⟩).calls = [] := by
  have h := create_order_validation ⟨true, some pOne, true⟩ 0 stEmpty
    ⟨some "u1", some "p1", some (.int 0)⟩ (by decide)
  exact ⟨h.2.1, h.2.2.2⟩

/-- Witness for C8: deleting the pending order succeeds with one +2
restoration call even though the product service is unreachable; deleting
the cancelled order issues no call; deleting the shipped order is a 400
no-op. -/
theorem delete_order_policy_witness :
    (delete_order false stPending 7).resp = .ok ∧
    lookupKey (delete_order false stPending 7).st.orders 7 = none ∧
    (delete_order false stPending 7).calls =
      [RemoteCall.patchStock "p1" 2] ∧
    (delete_order false stCancelled 7).calls = [] ∧
    (delete_order false stShipped 7).resp.code = 400 ∧
    (delete_order false stShipped 7).st = stShipped := by
  have h1 := delete_order_policy false stPending 7 oPending (by decide)
  have h2 := delete_order_policy false stCancelled 7 oCancelled (by decide)
  have h3 := delete_order_policy false stShipped 7 oShipped (by decide)
  exact ⟨(h1.2.1 rfl).1, (h1.2.1 rfl).2.1, (h1.2.1 rfl).2.2,
    (h2.2.2.1 rfl).2.2.1, (h3.2.2.2 (by decide)).2.1,
    (h3.2.2.2 (by decide)).2.2.1⟩

/-- Witness for C9: moving the cancelled order back to `pending` issues no
remote call and rewrites only its status and updated_at. -/
theorem update_order_noncancel_frame_witness :
    (update_order false 3 stCancelled 7 (some "pending")).calls = [] ∧
    (update_order false 3 stCancelled 7 (some "pending")).resp =
      .ok { oCancelled with status := "pending", updated_at := 3 } ∧
    (update_order false 3 stCancelled 7 (some "pending")).st.products =
      stCancelled.products ∧
    lookupKey
      (update_order false 3 stCancelled 7 (some "pending")).st.orders 7 =
      some { oCancelled with status := "pending", updated_at := 3 } := by
  have h := update_order_noncancel_frame false 3 stCancelled 7 oCancelled
    "pending" (by decide) (by decide) (by decide)
  exact ⟨h.1, h.2.1, h.2.2.1, h.2.2.2.2.1⟩

/-- Witness for C10: each conjunct of the status invariant applied at a
concrete state. -/
theorem order_status_invariant_witness :
    ({ user_id := "u1", product_id := "p1", quantity := 2,
       total_price := pOne.price * ((2 : Int) : ℚ), status := "pending",
       created_at := 0, updated_at := 0 } : Order).status = "pending" ∧
    statusesValid
      (create_order ⟨true, some pOne, true⟩ 0 stPending bodyTwo).st.orders ∧
    (update_order false 1 stPending 7 (some "unknown")).resp.code = 400 ∧
    (update_order false 1 stPending 7 (some "unknown")).st = stPending ∧
    statusesValid
      (update_order false 1 stPending 7 (some "delivered")).st.orders ∧
    ({ oPending with status := "confirmed", updated_at := 1 } :
      Order).status = "confirmed" ∧
    statusesValid (confirm_order 1 stPending 7).2.orders ∧
    statusesValid (delete_order false stPending 7).st.orders := by
  have hv : statusesValid stPending.orders := by
    show ∀ e ∈ stPending.orders, e.2.status ∈ valid_statuses
    decide
  refine ⟨?_, ?_, ?_, ?_, ?_, ?_, ?_, ?_⟩
  · exact order_status_invariant.1 ⟨true, some pOne, true⟩ 0 stEmpty bodyTwo
      stEmpty.nextId _ rfl
  · exact order_status_invariant.2.1 ⟨true, some pOne, true⟩ 0 stPending
      bodyTwo hv
  · exact (order_status_invariant.2.2.1 false 1 stPending 7 "unknown"
      oPending (by decide) (by decide)).2.1
  · exact (order_status_invariant.2.2.1 false 1 stPending 7 "unknown"
      oPending (by decide) (by decide)).2.2
  · exact order_status_invariant.2.2.2.1 false 1 stPending 7
      (some "delivered") hv
  · exact order_status_invariant.2.2.2.2.1 1 stPending 7 _ rfl
  · exact order_status_invariant.2.2.2.2.2.1 1 stPending 7 hv
  · exact order_status_invariant.2.2.2.2.2.2 false stPending 7 hv

end OrderSystem
